import Mathlib

/-!
Verification development for the NEST_ASP repository.

Part 1 models the device simulator state machine of
"NEST Simulations/nest_sim.py" (class SmartNest and the MQTT command
callback on_message).  Part 2 models the attribute write-verify protocol
of "Telegram/api_client.py".

Randomness (random.randint / random.uniform) is modelled by passing the
drawn values in as explicit inputs of each tick.  Python floats are
modelled as rationals.  Network interaction is modelled by explicit
response functions indexed by attempt number.
-/

/-- The random draws consumed by one call of SmartNest.update_logic:
the redraw of target_repeats (random.randint(5, 30)), the hen weight
(round(random.uniform(2000, 3500), 2)) and the egg count
(random.randint(1, 3)). -/
structure RandInput where
  newTarget : Nat
  henWeight : ℚ
  eggCount : Nat
deriving DecidableEq

/-- The mutable fields of a SmartNest instance (nest_sim.py, __init__).
The constant token and name fields play no role in the logic and are
omitted. -/
structure SmartNest where
  current_state_idx : Nat
  current_weight : ℚ
  current_uid : String
  telemetry_interval : ℚ
  door_status : String
  led_rgb : String
  state_counter : Nat
  target_repeats : Nat
deriving DecidableEq

/-- Python str.lower, restricted to the ASCII strings this system uses
for door_status values. -/
def py_lower (s : String) : String :=
  String.mk (s.data.map Char.toLower)

/-- self.states = ["WAITING_FOR_HEN", "HEN_INSIDE", "EGGS_DEPOSITED",
"PERSON_COLLECTING"]. -/
def states : List String :=
  ["WAITING_FOR_HEN", "HEN_INSIDE", "EGGS_DEPOSITED", "PERSON_COLLECTING"]

/-- The synthetic-data block of SmartNest.update_logic: when
state_counter == 1 regenerate current_uid and current_weight according
to the current state (dispatch by state name, as the source does). -/
def gen_fields (r : RandInput) (m : SmartNest) : SmartNest :=
  if m.state_counter = 1 then
    if states.getD m.current_state_idx "" = "WAITING_FOR_HEN" then
      { m with current_uid := "None", current_weight := 0 }
    else if states.getD m.current_state_idx "" = "HEN_INSIDE" then
      { m with current_uid := "9104EE5D", current_weight := r.henWeight }
    else if states.getD m.current_state_idx "" = "EGGS_DEPOSITED" then
      { m with current_uid := "None", current_weight := (r.eggCount * 65 : ℚ) }
    else if states.getD m.current_state_idx "" = "PERSON_COLLECTING" then
      { m with current_uid := "11580C5D", current_weight := 0 }
    else m
  else m

/-- The tail of SmartNest.update_logic shared by every non-blocked path:
increment state_counter, then run the synthetic-data block. -/
def gen_data (r : RandInput) (n : SmartNest) : SmartNest :=
  gen_fields r { n with state_counter := n.state_counter + 1 }

/-- SmartNest.update_logic.  If state_counter >= target_repeats a
transition is attempted; it is blocked (early return, nothing changes)
when the door is closed and the current state is WAITING_FOR_HEN;
otherwise the state index advances cyclically, state_counter resets to 0
and target_repeats is redrawn.  Every non-blocked path then runs the
shared increment-and-generate tail. -/
def update_logic (r : RandInput) (n : SmartNest) : SmartNest :=
  if n.target_repeats ≤ n.state_counter then
    if py_lower n.door_status = "closed" ∧
        states.getD n.current_state_idx "" = "WAITING_FOR_HEN" then
      n
    else
      gen_data r { n with
        current_state_idx := (n.current_state_idx + 1) % states.length,
        state_counter := 0,
        target_repeats := r.newTarget }
  else
    gen_data r n

/-- Iterated simulation: run update_logic once per element of the list
of random draws, in order. -/
def run_sim (rs : List RandInput) (n : SmartNest) : SmartNest :=
  rs.foldl (fun t r => update_logic r t) n

/-- The "period" value of an inbound command, keeping only the result of
the int(...) conversion the handler applies to it: some k when
int(params["period"]) succeeds with value k, none when it raises. -/
structure PeriodVal where
  intParse : Option Int
deriving DecidableEq

/-- An inbound MQTT command payload as seen by on_message, after JSON
decoding and extraction of the optional "params" envelope.  parsed is
false when json.loads (or the envelope access) raises; door and rgb hold
the string values of those keys when present.  Keys other than door, rgb
and period are not inspected by the handler and are not modelled. -/
structure CmdMsg where
  parsed : Bool
  door : Option String
  rgb : Option String
  period : Option PeriodVal
deriving DecidableEq

/-- nest_sim.py on_message.  The single try/except wraps the whole
handler body, so a failure while converting the period aborts the rest
of the handler but keeps every assignment already performed; the
exception itself is swallowed (logged). -/
def on_message (m : CmdMsg) (n : SmartNest) : SmartNest :=
  if m.parsed = false then n
  else
    let n1 := match m.door with
      | some d => { n with door_status := d }
      | none => n
    let n2 := match m.rgb with
      | some c => { n1 with led_rgb := c }
      | none => n1
    match m.period with
    | some pv =>
      match pv.intParse with
      | some k => { n2 with telemetry_interval := (k : ℚ) / 1000 }
      | none => n2
    | none => n2

/-! Helper lemmas about the simulator step. -/

theorem gen_fields_proj (r : RandInput) (m : SmartNest) :
    (gen_fields r m).current_state_idx = m.current_state_idx ∧
    (gen_fields r m).state_counter = m.state_counter ∧
    (gen_fields r m).target_repeats = m.target_repeats ∧
    (gen_fields r m).door_status = m.door_status := by
  unfold gen_fields
  split_ifs <;> exact ⟨rfl, rfl, rfl, rfl⟩

theorem gen_data_proj (r : RandInput) (n : SmartNest) :
    (gen_data r n).current_state_idx = n.current_state_idx ∧
    (gen_data r n).state_counter = n.state_counter + 1 ∧
    (gen_data r n).target_repeats = n.target_repeats ∧
    (gen_data r n).door_status = n.door_status := by
  unfold gen_data
  exact gen_fields_proj r _

/-- Concrete demo random draw used by the closed-instance theorems. -/
def r_demo : RandInput := ⟨7, 2500, 2⟩

/-- A nest sitting in WAITING_FOR_HEN with its dwell threshold reached
and the door closed. -/
def nest_blocked : SmartNest := ⟨0, 0, "None", 10, "closed", "off", 5, 5⟩

/-- A nest sitting in EGGS_DEPOSITED with its dwell threshold reached
and the door closed. -/
def nest_eggs : SmartNest := ⟨2, 130, "None", 10, "closed", "off", 5, 5⟩

/-- C1 counterexample: with the door closed, the current phase
EGGS_DEPOSITED (index 2) and state_counter >= target_repeats, the claim
says the transition into PERSON_COLLECTING is suppressed and the phase
stays at index 2; the code performs the transition and the phase becomes
index 3. -/
theorem C1_counterexample :
    (update_logic r_demo nest_eggs).current_state_idx = 3 ∧
    ¬ (update_logic r_demo nest_eggs).current_state_idx = 2 := by
  decide

/-- C1 (amended): under a closed door, with the dwell threshold reached,
only the WAITING_FOR_HEN -> HEN_INSIDE edge is suppressed; from every
other phase, including EGGS_DEPOSITED -> PERSON_COLLECTING, the
transition proceeds to the cyclically next phase. -/
theorem C1_gate_guards_only_waiting_edge (r : RandInput) (n : SmartNest)
    (hdoor : py_lower n.door_status = "closed")
    (hready : n.target_repeats ≤ n.state_counter)
    (hidx : n.current_state_idx < 4) :
    (update_logic r n).current_state_idx =
      if n.current_state_idx = 0 then 0 else (n.current_state_idx + 1) % 4 := by
  obtain ⟨idx, cw, cu, ti, ds, lr, sc, tr⟩ := n
  simp only at hdoor hready hidx ⊢
  unfold update_logic
  rw [if_pos hready]
  rcases idx with _ | _ | _ | _ | k
  · rw [if_pos ⟨hdoor, rfl⟩]
    simp
  · rw [if_neg (by simp [states])]
    exact (gen_data_proj r _).1
  · rw [if_neg (by simp [states])]
    exact (gen_data_proj r _).1
  · rw [if_neg (by simp [states])]
    exact (gen_data_proj r _).1
  · omega

/-- C1 witness: concrete evaluation of the amended theorem at the
EGGS_DEPOSITED instance. -/
theorem C1_witness :
    (update_logic r_demo nest_eggs).current_state_idx = 3 :=
  (C1_gate_guards_only_waiting_edge r_demo nest_eggs (by decide) (by decide)
    (by decide)).trans (by decide)

/-- C2 counterexample: on a blocked tick (door closed, phase
WAITING_FOR_HEN, state_counter >= target_repeats) the code returns
before the increment, so state_counter is NOT one more than before,
contrary to the claim. -/
theorem C2_counterexample :
    ¬ (update_logic r_demo nest_blocked).state_counter =
        nest_blocked.state_counter + 1 := by
  decide

/-- C2 (amended): on a blocked tick the step function is a no-op: phase,
dwell threshold and the tick counter are all left exactly unchanged (the
counter is not incremented, because the early return skips the shared
increment). -/
theorem C2_blocked_tick_noop (r : RandInput) (n : SmartNest)
    (hready : n.target_repeats ≤ n.state_counter)
    (hdoor : py_lower n.door_status = "closed")
    (hwait : n.current_state_idx = 0) :
    update_logic r n = n := by
  unfold update_logic
  rw [if_pos hready, if_pos ⟨hdoor, by rw [hwait]; rfl⟩]

/-- C2 witness: concrete evaluation of the amended theorem. -/
theorem C2_witness : update_logic r_demo nest_blocked = nest_blocked :=
  C2_blocked_tick_noop r_demo nest_blocked (by decide) (by decide) rfl

/-- One blocked-or-waiting step from WAITING_FOR_HEN with the door
closed keeps the phase at WAITING_FOR_HEN, the dwell threshold and the
door unchanged. -/
theorem update_logic_closed_waiting (r : RandInput) (n : SmartNest)
    (hidx : n.current_state_idx = 0)
    (hdoor : py_lower n.door_status = "closed") :
    (update_logic r n).current_state_idx = 0 ∧
    (update_logic r n).target_repeats = n.target_repeats ∧
    (update_logic r n).door_status = n.door_status := by
  unfold update_logic
  by_cases hready : n.target_repeats ≤ n.state_counter
  · rw [if_pos hready, if_pos ⟨hdoor, by rw [hidx]; rfl⟩]
    exact ⟨hidx, rfl, rfl⟩
  · rw [if_neg hready]
    obtain ⟨h1, _, h3, h4⟩ := gen_data_proj r n
    exact ⟨h1.trans hidx, h3, h4⟩

/-- C3: starting in WAITING_FOR_HEN with the door closed, any number of
ticks (any sequence of random draws) leaves the phase at WAITING_FOR_HEN
and never redraws the dwell threshold. -/
theorem C3_closed_gate_never_reaches_hen (rs : List RandInput)
    (n : SmartNest) (hidx : n.current_state_idx = 0)
    (hdoor : py_lower n.door_status = "closed") :
    (run_sim rs n).current_state_idx = 0 ∧
    (run_sim rs n).target_repeats = n.target_repeats := by
  induction rs generalizing n with
  | nil => exact ⟨hidx, rfl⟩
  | cons r rs ih =>
      obtain ⟨h1, h2, h3⟩ := update_logic_closed_waiting r n hidx hdoor
      obtain ⟨g1, g2⟩ := ih (update_logic r n) h1 (by rw [h3]; exact hdoor)
      exact ⟨g1, g2.trans h2⟩

/-- C3 witness: two concrete closed-door ticks from the blocked state. -/
theorem C3_witness :
    (run_sim [r_demo, ⟨6, 2000, 1⟩] nest_blocked).current_state_idx = 0 ∧
    (run_sim [r_demo, ⟨6, 2000, 1⟩] nest_blocked).target_repeats =
      nest_blocked.target_repeats :=
  C3_closed_gate_never_reaches_hen [r_demo, ⟨6, 2000, 1⟩] nest_blocked rfl
    (by decide)

theorem gen_fields_skip (r : RandInput) (m : SmartNest)
    (h : ¬ m.state_counter = 1) : gen_fields r m = m := by
  unfold gen_fields
  rw [if_neg h]

theorem gen_fields_identity (r : RandInput) (m : SmartNest)
    (h1 : m.state_counter = 1) :
    ((gen_fields r m).current_state_idx = 0 →
      (gen_fields r m).current_uid = "None" ∧
      (gen_fields r m).current_weight = 0) ∧
    ((gen_fields r m).current_state_idx = 1 →
      (gen_fields r m).current_uid = "9104EE5D" ∧
      (gen_fields r m).current_weight = r.henWeight) ∧
    ((gen_fields r m).current_state_idx = 2 →
      (gen_fields r m).current_uid = "None" ∧
      (gen_fields r m).current_weight = (r.eggCount * 65 : ℚ)) ∧
    ((gen_fields r m).current_state_idx = 3 →
      (gen_fields r m).current_uid = "11580C5D" ∧
      (gen_fields r m).current_weight = 0) := by
  obtain ⟨idx, cw, cu, ti, ds, lr, sc, tr⟩ := m
  simp only at h1
  subst h1
  rcases idx with _ | _ | _ | _ | k <;> simp [gen_fields, states]

/-- C4: on every tick with a reachable dwell threshold (always at least
5 in the source, here at least 2), current_uid and current_weight are
left unchanged whenever the post-tick counter differs from 1, and on a
tick where the post-tick counter equals 1 they hold exactly the
per-phase regenerated values. -/
theorem C4_identity_once (r : RandInput) (n : SmartNest)
    (ht : 2 ≤ n.target_repeats) :
    ((update_logic r n).state_counter ≠ 1 →
      (update_logic r n).current_uid = n.current_uid ∧
      (update_logic r n).current_weight = n.current_weight) ∧
    ((update_logic r n).state_counter = 1 →
      ((update_logic r n).current_state_idx = 0 →
        (update_logic r n).current_uid = "None" ∧
        (update_logic r n).current_weight = 0) ∧
      ((update_logic r n).current_state_idx = 1 →
        (update_logic r n).current_uid = "9104EE5D" ∧
        (update_logic r n).current_weight = r.henWeight) ∧
      ((update_logic r n).current_state_idx = 2 →
        (update_logic r n).current_uid = "None" ∧
        (update_logic r n).current_weight = (r.eggCount * 65 : ℚ)) ∧
      ((update_logic r n).current_state_idx = 3 →
        (update_logic r n).current_uid = "11580C5D" ∧
        (update_logic r n).current_weight = 0)) := by
  unfold update_logic
  by_cases hready : n.target_repeats ≤ n.state_counter
  · rw [if_pos hready]
    by_cases hlock : py_lower n.door_status = "closed" ∧
        states.getD n.current_state_idx "" = "WAITING_FOR_HEN"
    · rw [if_pos hlock]
      exact ⟨fun _ => ⟨rfl, rfl⟩, fun h1 => absurd h1 (by omega)⟩
    · rw [if_neg hlock]
      exact ⟨fun hne => absurd ((gen_data_proj r _).2.1.trans rfl) hne,
        fun _ => gen_fields_identity r _ rfl⟩
  · rw [if_neg hready]
    by_cases hzero : n.state_counter = 0
    · refine ⟨fun hne => absurd ?_ hne, fun _ => gen_fields_identity r _ ?_⟩
      · rw [(gen_data_proj r n).2.1, hzero]
      · show n.state_counter + 1 = 1
        omega
    · have hskip : gen_data r n = { n with state_counter := n.state_counter + 1 } := by
        unfold gen_data
        exact gen_fields_skip r _ (by simp; omega)
      rw [hskip]
      refine ⟨fun _ => ⟨rfl, rfl⟩, fun h1 => ?_⟩
      exact absurd (show n.state_counter + 1 = 1 from h1) (by omega)

/-- A nest freshly entered into WAITING_FOR_HEN (counter 0), door open. -/
def nest_fresh : SmartNest := ⟨0, 0, "None", 10, "open", "off", 0, 5⟩

/-- C4 witness: on the first tick of a fresh WAITING_FOR_HEN phase the
identity fields hold the regenerated values. -/
theorem C4_witness :
    (update_logic r_demo nest_fresh).current_uid = "None" ∧
    (update_logic r_demo nest_fresh).current_weight = 0 :=
  ((C4_identity_once r_demo nest_fresh (by decide)).2 (by decide)).1 (by decide)

/-- Inbound command whose door value is the string "closed" and whose
period value fails int() conversion (e.g. {"door": "closed",
"period": "abc"}). -/
def msg_door_badperiod : CmdMsg := ⟨true, some "closed", none, some ⟨none⟩⟩

/-- C8 counterexample: a payload carrying a valid door value together
with a non-numeric period is "malformed" in the sense of the claim (a field
fails conversion), yet the handler has already assigned door_status
before the conversion raises, so the device state is NOT left
unchanged. -/
theorem C8_counterexample :
    (on_message msg_door_badperiod nest_fresh).door_status = "closed" ∧
    ¬ (on_message msg_door_badperiod nest_fresh).door_status =
        nest_fresh.door_status := by
  decide

/-- C8 (amended): the handler is total (modelled as a pure function, it
never raises past its boundary); a payload that fails JSON parsing
leaves the state fully unchanged, as does a payload with none of the
known keys; a non-numeric period leaves telemetry_interval unchanged,
but door/rgb assignments made before the failing conversion persist
(door_status ends up holding the delivered value); the state-machine
fields are never touched by the handler. -/
theorem C8_malformed_payload (m : CmdMsg) (n : SmartNest) :
    (m.parsed = false → on_message m n = n) ∧
    (m.door = none ∧ m.rgb = none ∧ m.period = none → on_message m n = n) ∧
    (∀ pv, m.period = some pv → pv.intParse = none →
      (on_message m n).telemetry_interval = n.telemetry_interval) ∧
    (∀ d, m.parsed = true → m.door = some d →
      (on_message m n).door_status = d) ∧
    ((on_message m n).current_state_idx = n.current_state_idx ∧
     (on_message m n).state_counter = n.state_counter ∧
     (on_message m n).target_repeats = n.target_repeats ∧
     (on_message m n).current_uid = n.current_uid ∧
     (on_message m n).current_weight = n.current_weight) := by
  obtain ⟨p, d, c, pe⟩ := m
  cases p <;> cases d <;> cases c <;>
    rcases pe with _ | ⟨_ | k⟩ <;>
    simp [on_message]

/-- C8 witness: concrete evaluation of the amended theorem on the
door-plus-bad-period payload. -/
theorem C8_witness :
    (on_message msg_door_badperiod nest_fresh).telemetry_interval =
      nest_fresh.telemetry_interval ∧
    (on_message msg_door_badperiod nest_fresh).door_status = "closed" :=
  ⟨(C8_malformed_payload msg_door_badperiod nest_fresh).2.2.1 ⟨none⟩ rfl rfl,
   (C8_malformed_payload msg_door_badperiod nest_fresh).2.2.2.1 "closed" rfl rfl⟩

/-!
Part 2: the attribute write-verify protocol of Telegram/api_client.py.

A remote store value is modelled by what the protocol observes of it:
the result of float(v) when that conversion succeeds with a finite
value, and the result of str(v).  A write POST is modelled as an Except
value (error e models a raised exception with message str(e)); the i-th
verification poll is modelled by a response function indexed by the
attempt number.  Returned read counts instrument how many polls a call
performed.
-/

/-- A Python value as the comparison code observes it: toFloat is some q
when float(v) succeeds with (finite) value q and none when it raises
ValueError/TypeError, toStr is str(v). -/
structure PyVal where
  toFloat : Option ℚ
  toStr : String
deriving DecidableEq

/-- The i-th poll of _verify_attribute_change: err when the GET raises
(caught in the loop), missing when the response lacks the client scope
or the attribute key, val v when the attribute value v was read. -/
inductive VRead
  | err
  | missing
  | val (v : PyVal)
deriving DecidableEq

/-- One comparison inside _verify_attribute_change: try to compare
current and expected as numbers with tolerance 0.001; if either float()
conversion raises, fall back to comparing str(current) with
str(expected). -/
def compare_values (current expected : PyVal) : Bool :=
  match current.toFloat, expected.toFloat with
  | some c, some e => |c - e| < 1/1000
  | _, _ => current.toStr = expected.toStr

/-- How one iteration of a verification loop ends: a match (return
success), a logged mismatch, or an exception swallowed by the except
clause inside the loop (a raised GET, or the NameError raised by the
mismatch log line when the local holding the current value was never
assigned). -/
inductive AttemptOutcome
  | matched
  | mismatchLogged
  | exceptionSwallowed
deriving DecidableEq

/-- Outcome of one iteration of the _verify_attribute_change loop, given
the binding state of the local current_value before the iteration.  On a
missing response the if-block is skipped and the log statement reads
current_value: NameError (swallowed) if it was never assigned, a logged
stale value otherwise. -/
def attempt_outcome (expected : PyVal) (bound : Option PyVal) (r : VRead) :
    AttemptOutcome :=
  match r with
  | .err => .exceptionSwallowed
  | .missing =>
    match bound with
    | none => .exceptionSwallowed
    | some _ => .mismatchLogged
  | .val v =>
    if compare_values v expected then .matched else .mismatchLogged

/-- The binding of the local current_value after an iteration: assigned
exactly when the response carried a value. -/
def bound_after (bound : Option PyVal) (r : VRead) : Option PyVal :=
  match r with
  | .val v => some v
  | _ => bound

/-- The polling loop of _verify_attribute_change: i is the index of the
next attempt, the second argument the remaining attempts; returns the
boolean result and the total number of polls performed. -/
def verify_loop (expected : PyVal) (reads : Nat → VRead) :
    Nat → Nat → Option PyVal → Bool × Nat
  | i, 0, _ => (false, i)
  | i, fuel + 1, bound =>
    match attempt_outcome expected bound (reads i) with
    | .matched => (true, i + 1)
    | _ => verify_loop expected reads (i + 1) fuel (bound_after bound (reads i))

/-- APIClient._verify_attribute_change with the given attempt budget,
instrumented with the number of polls performed. -/
def verify_attribute_change (expected : PyVal) (reads : Nat → VRead)
    (maxAttempts : Nat) : Bool × Nat :=
  verify_loop expected reads 0 maxAttempts none

/-- The i-th poll in set_door_status: missing covers both a failed GET
(which get_door_status turns into None) and a response without the
shared/door keys; val s is a read of the door attribute. -/
inductive DoorRead
  | missing
  | val (s : String)
deriving DecidableEq

/-- Outcome of one iteration of the set_door_status verification loop,
with the binding state of the local current_status (exact string
comparison with the desired status, as in the source). -/
def door_attempt_outcome (status : String) (bound : Option String)
    (r : DoorRead) : AttemptOutcome :=
  match r with
  | .missing =>
    match bound with
    | none => .exceptionSwallowed
    | some _ => .mismatchLogged
  | .val s =>
    if s = status then .matched else .mismatchLogged

/-- The binding of the local current_status after an iteration. -/
def door_bound_after (bound : Option String) (r : DoorRead) :
    Option String :=
  match r with
  | .val s => some s
  | _ => bound

/-- The for-attempt-in-range(3) loop of set_door_status (the exhaustion
message hardcodes "3 attempts" in the source). -/
def door_verify_loop (status : String) (reads : Nat → DoorRead) :
    Nat → Nat → Option String → (Bool × String) × Nat
  | i, 0, _ =>
    ((false, "Update sent but verification failed after 3 attempts"), i)
  | i, fuel + 1, bound =>
    match door_attempt_outcome status bound (reads i) with
    | .matched => ((true, "Door successfully set to " ++ status), i + 1)
    | _ =>
      door_verify_loop status reads (i + 1) fuel
        (door_bound_after bound (reads i))

/-- APIClient.set_door_status: POST the value, then poll up to 3 times;
a raised POST is caught and reported with zero polls performed. -/
def set_door_status (writeResult : Except String Unit)
    (reads : Nat → DoorRead) (status : String) : (Bool × String) × Nat :=
  match writeResult with
  | .error e => ((false, "Error: " ++ e), 0)
  | .ok _ => door_verify_loop status reads 0 3 none

/-- APIClient.set_temperature_attribute: POST the value, then delegate
to _verify_attribute_change with its default budget of 3. -/
def set_temperature_attribute (writeResult : Except String Unit)
    (reads : Nat → VRead) (attr : String) (value : PyVal) :
    (Bool × String) × Nat :=
  match writeResult with
  | .error e => ((false, "Error: " ++ e), 0)
  | .ok _ =>
    let v := verify_attribute_change value reads 3
    if v.1 then
      ((true, attr ++ " successfully updated to " ++ value.toStr ++
        "Â°C (verified)"), v.2)
    else
      ((false, "Update sent but verification failed for " ++ attr), v.2)

/-- APIClient.set_location_attributes: one POST for both fields, then an
independent verification of latitude and of longitude, with a per-field
combined report. -/
def set_location_attributes (writeResult : Except String Unit)
    (latReads lonReads : Nat → VRead) (lat lon : PyVal) :
    (Bool × String) × Nat :=
  match writeResult with
  | .error e => ((false, "Error: " ++ e), 0)
  | .ok _ =>
    let lv := verify_attribute_change lat latReads 3
    let gv := verify_attribute_change lon lonReads 3
    if lv.1 && gv.1 then
      ((true, "Location successfully updated (lat=" ++ lat.toStr ++
        ", lon=" ++ lon.toStr ++ ")"), lv.2 + gv.2)
    else if lv.1 then
      ((false, "Only latitude verified, longitude verification failed"),
        lv.2 + gv.2)
    else if gv.1 then
      ((false, "Only longitude verified, latitude verification failed"),
        lv.2 + gv.2)
    else
      ((false, "Update sent but both verifications failed"), lv.2 + gv.2)

/-- APIClient.set_weight_attributes: identical per-field protocol for
avgWeight and minWeight. -/
def set_weight_attributes (writeResult : Except String Unit)
    (avgReads minReads : Nat → VRead) (avgW minW : PyVal) :
    (Bool × String) × Nat :=
  match writeResult with
  | .error e => ((false, "Error: " ++ e), 0)
  | .ok _ =>
    let av := verify_attribute_change avgW avgReads 3
    let mv := verify_attribute_change minW minReads 3
    if av.1 && mv.1 then
      ((true, "Egg weights successfully updated (avg=" ++ avgW.toStr ++
        "g, min=" ++ minW.toStr ++ "g)"), av.2 + mv.2)
    else if av.1 then
      ((false, "Only avgWeight verified, minWeight verification failed"),
        av.2 + mv.2)
    else if mv.1 then
      ((false, "Only minWeight verified, avgWeight verification failed"),
        av.2 + mv.2)
    else
      ((false, "Update sent but both verifications failed"), av.2 + mv.2)

/-- The result of get_weight_attributes as get_egg_type consumes it:
fetchFailed models a None return, emptyResult a response without the
client scope (an empty dict, falsy in the membership test), vals the
dict with its avgWeight and minWeight entries.  A missing avgWeight key
is delivered as the default string "NaN"; Python parses it to the float
nan, which fails both tolerance checks, so it is modelled as an
unparseable value, which is classified identically. -/
inductive WeightData
  | fetchFailed
  | emptyResult
  | vals (avgW minW : PyVal)
deriving DecidableEq

/-- APIClient.get_egg_type as a pure function of the fetched weight
attributes: within 0.001 of 63 gives Hen, within 0.001 of 11 gives
Quail, everything else (including unparseable, missing, failed fetch)
gives Unknown. -/
def get_egg_type (wd : WeightData) : String :=
  match wd with
  | .vals avgW _ =>
    match avgW.toFloat with
    | some q =>
      if |q - 63| < 1/1000 then "Hen"
      else if |q - 11| < 1/1000 then "Quail"
      else "Unknown"
    | none => "Unknown"
  | _ => "Unknown"

/-! Helper lemmas about the verification loops. -/

theorem attempt_not_matched (expected : PyVal) (bound : Option PyVal)
    (r : VRead) (h : ∀ v, r = VRead.val v → compare_values v expected = false) :
    attempt_outcome expected bound r ≠ .matched := by
  cases r with
  | err => simp [attempt_outcome]
  | missing => cases bound <;> simp [attempt_outcome]
  | val v => simp [attempt_outcome, h v rfl]

theorem verify_loop_exhaust (expected : PyVal) (reads : Nat → VRead)
    (h : ∀ i v, reads i = VRead.val v → compare_values v expected = false) :
    ∀ fuel i bound, verify_loop expected reads i fuel bound = (false, i + fuel) := by
  intro fuel
  induction fuel with
  | zero => intro i bound; rfl
  | succ f ih =>
      intro i bound
      unfold verify_loop
      rcases hout : attempt_outcome expected bound (reads i) with _ | _ | _
      · exact absurd hout (attempt_not_matched expected bound (reads i) (h i))
      · rw [ih (i + 1)]
        have harith : i + 1 + f = i + (f + 1) := by omega
        rw [harith]
      · rw [ih (i + 1)]
        have harith : i + 1 + f = i + (f + 1) := by omega
        rw [harith]

theorem door_attempt_not_matched (status : String) (bound : Option String)
    (r : DoorRead) (h : ∀ s, r = DoorRead.val s → ¬ s = status) :
    door_attempt_outcome status bound r ≠ .matched := by
  cases r with
  | missing => cases bound <;> simp [door_attempt_outcome]
  | val s => simp [door_attempt_outcome, h s rfl]

theorem door_loop_exhaust (status : String) (reads : Nat → DoorRead)
    (h : ∀ i s, reads i = DoorRead.val s → ¬ s = status) :
    ∀ fuel i bound, door_verify_loop status reads i fuel bound =
      ((false, "Update sent but verification failed after 3 attempts"), i + fuel) := by
  intro fuel
  induction fuel with
  | zero => intro i bound; rfl
  | succ f ih =>
      intro i bound
      unfold door_verify_loop
      rcases hout : door_attempt_outcome status bound (reads i) with _ | _ | _
      · exact absurd hout (door_attempt_not_matched status bound (reads i) (h i))
      · rw [ih (i + 1)]
        have harith : i + 1 + f = i + (f + 1) := by omega
        rw [harith]
      · rw [ih (i + 1)]
        have harith : i + 1 + f = i + (f + 1) := by omega
        rw [harith]

/-- The store responses of the numeric success scenario: the first poll
still sees the stale value 22, the second sees 23.5004. -/
def store_reads : Nat → VRead := fun i =>
  if i = 0 then .val ⟨some 22, "22.0"⟩
  else .val ⟨some (235004/10000), "23.5004"⟩

/-- C5: a poll attempt matches iff both values parse as numbers within
0.001 of each other, or at least one fails to parse and the string
coercions agree; the first matching attempt returns success immediately
with exactly the polls spent so far; concretely, with desired 23.5 and
the store returning 23.5004 on the second poll, the call returns true
after exactly 2 polls. -/
theorem C5_numeric_match_early_return (current expected : PyVal) :
    (compare_values current expected = true ↔
      ((∃ c e, current.toFloat = some c ∧ expected.toFloat = some e ∧
          |c - e| < 1/1000) ∨
        ((current.toFloat = none ∨ expected.toFloat = none) ∧
          current.toStr = expected.toStr))) ∧
    (∀ reads bound i fuel,
      attempt_outcome expected bound (reads i) = .matched →
      verify_loop expected reads i (fuel + 1) bound = (true, i + 1)) ∧
    verify_attribute_change ⟨some (47/2), "23.5"⟩ store_reads 3 = (true, 2) := by
  refine ⟨?_, ?_, ?_⟩
  · rcases hc : current.toFloat with _ | c <;>
      rcases he : expected.toFloat with _ | e <;>
        simp [compare_values, hc, he]
  · intro reads bound i fuel hmatch
    unfold verify_loop
    rw [hmatch]
  · have h1 : ¬ |(22 : ℚ) - 47/2| < 1/1000 := by
      rw [abs_sub_lt_iff]
      intro h
      linarith [h.2]
    have h2 : |(235004/10000 : ℚ) - 47/2| < 1/1000 := by
      rw [abs_sub_lt_iff]
      constructor <;> norm_num
    rw [one_div] at h1 h2
    simp [verify_attribute_change, verify_loop, attempt_outcome,
      bound_after, compare_values, store_reads, h1, h2]

/-- C5 witness: the closed scenario conjunct of the theorem. -/
theorem C5_witness :
    verify_attribute_change ⟨some (47/2), "23.5"⟩ store_reads 3 = (true, 2) :=
  (C5_numeric_match_early_return ⟨none, ""⟩ ⟨none, ""⟩).2.2

/-- C6: a raised write POST is reported as (false, error-detail) with
zero polls, for the door as for a temperature threshold; a write that
succeeds but never verifies consumes exactly 3 polls and is reported
with the distinguishable sent-but-verification-failed detail. -/
theorem C6_write_error_vs_exhaustion :
    (∀ e reads status,
      set_door_status (.error e) reads status = ((false, "Error: " ++ e), 0)) ∧
    (∀ e reads attr value,
      set_temperature_attribute (.error e) reads attr value =
        ((false, "Error: " ++ e), 0)) ∧
    (∀ reads status, (∀ i s, reads i = DoorRead.val s → ¬ s = status) →
      set_door_status (.ok ()) reads status =
        ((false, "Update sent but verification failed after 3 attempts"), 3)) ∧
    (∀ reads attr value,
      (∀ i v, reads i = VRead.val v → compare_values v value = false) →
      set_temperature_attribute (.ok ()) reads attr value =
        ((false, "Update sent but verification failed for " ++ attr), 3)) := by
  refine ⟨fun e reads status => rfl, fun e reads attr value => rfl, ?_, ?_⟩
  · intro reads status h
    unfold set_door_status
    rw [door_loop_exhaust status reads h 3 0 none]
  · intro reads attr value h
    unfold set_temperature_attribute
    have hv : verify_attribute_change value reads 3 = (false, 3) :=
      verify_loop_exhaust value reads h 3 0 none
    rw [hv]
    simp

/-- C6 witness: a concrete raised write and a concrete exhaustion run
(desired "closed", store always answering "open"). -/
theorem C6_witness :
    set_door_status (.error "boom") (fun _ => DoorRead.missing) "closed" =
      ((false, "Error: boom"), 0) ∧
    set_door_status (.ok ()) (fun _ => DoorRead.val "open") "closed" =
      ((false, "Update sent but verification failed after 3 attempts"), 3) :=
  ⟨C6_write_error_vs_exhaustion.1 "boom" (fun _ => DoorRead.missing) "closed",
   C6_write_error_vs_exhaustion.2.2.1 (fun _ => DoorRead.val "open") "closed"
     (by intro i s h; cases h; decide)⟩

/-- C7: a composite mutation succeeds exactly when every field verifies,
and when exactly one field verifies the returned detail names the
verified and the failed field, in both directions (latitude-only and
longitude-only for location, avgWeight-only and minWeight-only for the
egg weights). -/
theorem C7_composite_reports_per_field :
    (∀ latReads lonReads lat lon,
      ((set_location_attributes (.ok ()) latReads lonReads lat lon).1.1 = true ↔
        (verify_attribute_change lat latReads 3).1 = true ∧
        (verify_attribute_change lon lonReads 3).1 = true)) ∧
    (∀ latReads lonReads lat lon,
      (verify_attribute_change lat latReads 3).1 = true →
      (verify_attribute_change lon lonReads 3).1 = false →
      (set_location_attributes (.ok ()) latReads lonReads lat lon).1 =
        (false, "Only latitude verified, longitude verification failed")) ∧
    (∀ avgReads minReads avgW minW,
      ((set_weight_attributes (.ok ()) avgReads minReads avgW minW).1.1 = true ↔
        (verify_attribute_change avgW avgReads 3).1 = true ∧
        (verify_attribute_change minW minReads 3).1 = true)) ∧
    (∀ avgReads minReads avgW minW,
      (verify_attribute_change avgW avgReads 3).1 = true →
      (verify_attribute_change minW minReads 3).1 = false →
      (set_weight_attributes (.ok ()) avgReads minReads avgW minW).1 =
        (false, "Only avgWeight verified, minWeight verification failed")) ∧
    (∀ latReads lonReads lat lon,
      (verify_attribute_change lat latReads 3).1 = false →
      (verify_attribute_change lon lonReads 3).1 = true →
      (set_location_attributes (.ok ()) latReads lonReads lat lon).1 =
        (false, "Only longitude verified, latitude verification failed")) ∧
    (∀ avgReads minReads avgW minW,
      (verify_attribute_change avgW avgReads 3).1 = false →
      (verify_attribute_change minW minReads 3).1 = true →
      (set_weight_attributes (.ok ()) avgReads minReads avgW minW).1 =
        (false, "Only minWeight verified, avgWeight verification failed")) := by
  refine ⟨?_, ?_, ?_, ?_, ?_, ?_⟩
  · intro latReads lonReads lat lon
    simp only [set_location_attributes]
    cases hl : (verify_attribute_change lat latReads 3).1 <;>
      cases hg : (verify_attribute_change lon lonReads 3).1 <;>
        simp [hl, hg]
  · intro latReads lonReads lat lon h1 h2
    simp only [set_location_attributes]
    simp [h1, h2]
  · intro avgReads minReads avgW minW
    simp only [set_weight_attributes]
    cases ha : (verify_attribute_change avgW avgReads 3).1 <;>
      cases hm : (verify_attribute_change minW minReads 3).1 <;>
        simp [ha, hm]
  · intro avgReads minReads avgW minW h1 h2
    simp only [set_weight_attributes]
    simp [h1, h2]
  · intro latReads lonReads lat lon h1 h2
    simp only [set_location_attributes]
    simp [h1, h2]
  · intro avgReads minReads avgW minW h1 h2
    simp only [set_weight_attributes]
    simp [h1, h2]

/-- A store whose latitude reads always echo the written textual value. -/
def lat_reads : Nat → VRead := fun _ => .val ⟨none, "40.0"⟩

/-- A store whose longitude reads always lack the requested key. -/
def lon_reads : Nat → VRead := fun _ => .missing

/-- A store whose longitude reads always echo the written textual
value. -/
def lon_ok_reads : Nat → VRead := fun _ => .val ⟨none, "-3.0"⟩

/-- C7 witness: with only latitude verifying the report names latitude
as the verified field, and with only longitude verifying it names
longitude. -/
theorem C7_witness :
    (set_location_attributes (.ok ()) lat_reads lon_reads
        ⟨none, "40.0"⟩ ⟨none, "-3.0"⟩).1 =
      (false, "Only latitude verified, longitude verification failed") ∧
    (set_location_attributes (.ok ()) lon_reads lon_ok_reads
        ⟨none, "40.0"⟩ ⟨none, "-3.0"⟩).1 =
      (false, "Only longitude verified, latitude verification failed") :=
  ⟨C7_composite_reports_per_field.2.1 lat_reads lon_reads
    ⟨none, "40.0"⟩ ⟨none, "-3.0"⟩ (by decide) (by decide),
   C7_composite_reports_per_field.2.2.2.2.1 lon_reads lon_ok_reads
    ⟨none, "40.0"⟩ ⟨none, "-3.0"⟩ (by decide) (by decide)⟩

theorem hen_quail_disjoint (q : ℚ) (h63 : |q - 63| < 1/1000) :
    ¬ |q - 11| < 1/1000 := by
  rw [abs_sub_lt_iff] at h63 ⊢
  intro h
  linarith [h63.2, h.1]

/-- C9: get_egg_type is a pure classification of the fetched avgWeight:
Hen exactly when the value parses within 0.001 of 63, Quail exactly when
it parses within 0.001 of 11, and Unknown in every other case (failed
fetch, missing client scope, unparseable value, any other number). -/
theorem C9_egg_type_classification (wd : WeightData) :
    (get_egg_type wd = "Hen" ↔
      ∃ a m q, wd = WeightData.vals a m ∧ a.toFloat = some q ∧
        |q - 63| < 1/1000) ∧
    (get_egg_type wd = "Quail" ↔
      ∃ a m q, wd = WeightData.vals a m ∧ a.toFloat = some q ∧
        |q - 11| < 1/1000) ∧
    (get_egg_type wd = "Hen" ∨ get_egg_type wd = "Quail" ∨
      get_egg_type wd = "Unknown") := by
  cases wd with
  | fetchFailed => simp [get_egg_type]
  | emptyResult => simp [get_egg_type]
  | vals a m =>
      rcases hf : a.toFloat with _ | q
      · simp [get_egg_type, hf]
      · have hgoal : get_egg_type (WeightData.vals a m) =
            if |q - 63| < 1/1000 then "Hen"
            else if |q - 11| < 1/1000 then "Quail" else "Unknown" := by
          dsimp only [get_egg_type]
          rw [hf]
        rw [hgoal]
        by_cases h63 : |q - 63| < 1/1000
        · rw [if_pos h63]
          refine ⟨⟨fun _ => ⟨a, m, q, rfl, hf, h63⟩, fun _ => rfl⟩,
            ⟨fun hh => absurd hh (by decide), ?_⟩, Or.inl rfl⟩
          rintro ⟨a2, m2, q2, heq, hf2, hq2⟩
          injection heq with ha hm
          subst ha
          subst hm
          rw [hf] at hf2
          injection hf2 with hq
          subst hq
          exact absurd hq2 (hen_quail_disjoint q h63)
        · rw [if_neg h63]
          by_cases h11 : |q - 11| < 1/1000
          · rw [if_pos h11]
            refine ⟨⟨fun hh => absurd hh (by decide), ?_⟩,
              ⟨fun _ => ⟨a, m, q, rfl, hf, h11⟩, fun _ => rfl⟩,
              Or.inr (Or.inl rfl)⟩
            rintro ⟨a2, m2, q2, heq, hf2, hq2⟩
            injection heq with ha hm
            subst ha
            subst hm
            rw [hf] at hf2
            injection hf2 with hq
            subst hq
            exact absurd hq2 h63
          · rw [if_neg h11]
            refine ⟨⟨fun hh => absurd hh (by decide), ?_⟩,
              ⟨fun hh => absurd hh (by decide), ?_⟩, Or.inr (Or.inr rfl)⟩
            · rintro ⟨a2, m2, q2, heq, hf2, hq2⟩
              injection heq with ha hm
              subst ha
              subst hm
              rw [hf] at hf2
              injection hf2 with hq
              subst hq
              exact absurd hq2 h63
            · rintro ⟨a2, m2, q2, heq, hf2, hq2⟩
              injection heq with ha hm
              subst ha
              subst hm
              rw [hf] at hf2
              injection hf2 with hq
              subst hq
              exact absurd hq2 h11

/-- C9 witness: an avgWeight of exactly 63 is classified as Hen. -/
theorem C9_witness :
    get_egg_type (WeightData.vals ⟨some 63, "63"⟩ ⟨some 5, "5"⟩) = "Hen" :=
  (C9_egg_type_classification (WeightData.vals ⟨some 63, "63"⟩ ⟨some 5, "5"⟩)).1.mpr
    ⟨⟨some 63, "63"⟩, ⟨some 5, "5"⟩, 63, rfl, rfl, by rw [sub_self, abs_zero]; norm_num⟩

/-- C10: a poll response lacking the expected keys while the local
holding the last read value was never assigned makes the logging line
raise, the exception is swallowed inside the loop, the attempt is still
consumed, and the call still returns its result tuple: with every
response degenerate, set_door_status exhausts its 3 attempts and returns
the failure tuple, and _verify_attribute_change does the same. -/
theorem C10_degenerate_polls :
    (∀ status, door_attempt_outcome status none DoorRead.missing =
      AttemptOutcome.exceptionSwallowed) ∧
    (∀ reads status, (∀ i, reads i = DoorRead.missing) →
      set_door_status (.ok ()) reads status =
        ((false, "Update sent but verification failed after 3 attempts"), 3)) ∧
    (∀ expected, attempt_outcome expected none VRead.missing =
      AttemptOutcome.exceptionSwallowed) ∧
    (∀ reads expected, (∀ i, reads i = VRead.missing) →
      verify_attribute_change expected reads 3 = (false, 3)) := by
  refine ⟨fun status => rfl, ?_, fun expected => rfl, ?_⟩
  · intro reads status h
    unfold set_door_status
    rw [door_loop_exhaust status reads
      (fun i s hs => by rw [h i] at hs; cases hs) 3 0 none]
  · intro reads expected h
    exact verify_loop_exhaust expected reads
      (fun i v hv => by rw [h i] at hv; cases hv) 3 0 none

/-- C10 witness: concrete all-degenerate poll runs for both calls. -/
theorem C10_witness :
    set_door_status (.ok ()) (fun _ => DoorRead.missing) "closed" =
      ((false, "Update sent but verification failed after 3 attempts"), 3) ∧
    verify_attribute_change ⟨some (47/2), "23.5"⟩ (fun _ => VRead.missing) 3 =
      (false, 3) :=
  ⟨C10_degenerate_polls.2.1 (fun _ => DoorRead.missing) "closed" (fun _ => rfl),
   C10_degenerate_polls.2.2.2 (fun _ => VRead.missing) ⟨some (47/2), "23.5"⟩
     (fun _ => rfl)⟩
